import Mathlib

/-!
Verification of the AI request dispatch subsystem: the token ledger
(`SMS/tokens.py`), the admission lock (`ai/request_queue.py`), the model
router (`ai/model_router.py`) and the orchestrator (`ai/handlers_chat.py`),
shallowly embedded in Lean.

Modelling conventions:
* The SQLite table `token_balances` is a map `user_id -> stored value`.
  A stored value is either a proper integer or a legacy corrupt value
  (NULL, the empty string, or non-numeric text), which every read coerces
  to 0 exactly as the Python code does.
* Database operations are modelled on their transactional no-error path;
  wall-clock time (`time.time()`) is a parameter `now : Int`.
* Provider invoke functions are modelled as an attempt-indexed behaviour
  `String -> Nat -> Except String String` keyed by provider name:
  `.error e` is a raised exception, `.ok r` a returned string.
-/

/-- A value stored in the `tokens` column: a proper integer, or a legacy
corrupt value (NULL / empty string / non-numeric) that reads coerce to 0. -/
inductive StoredTokens where
  | ival (n : Int)
  | corrupt
deriving DecidableEq, Repr

/-- Coercion every read applies: `int(value)` with NULL / empty / parse
failure mapped to 0 (`tokens.py` lines 36–48, 128–136, 190–198). -/
def StoredTokens.toInt : StoredTokens → Int
  | .ival n => n
  | .corrupt => 0

/-- The `token_balances` table. -/
abbrev Store := Int → Option StoredTokens

/-- The upsert `INSERT ... ON CONFLICT(user_id) DO UPDATE SET tokens = ?`. -/
def Store.set (s : Store) (uid : Int) (v : StoredTokens) : Store :=
  fun u => if u = uid then some v else s u

/-- `DEFAULT_START_TOKENS = int(os.getenv("SMS_DEFAULT_TOKENS", "20"))`,
with the default configuration. -/
def DEFAULT_START_TOKENS : Int := 20

/-- `get_token_balance` (`tokens.py` 20–86) on the no-error path: an existing
row is read (corrupt values coerce to 0, no write); a missing row is created
at the default via insert-if-absent and the default is returned. -/
def get_token_balance (s : Store) (uid : Int) : Int × Store :=
  match s uid with
  | some v => (v.toInt, s)
  | none => (DEFAULT_START_TOKENS, s.set uid (.ival DEFAULT_START_TOKENS))

/-- `set_token_balance` (`tokens.py` 89–111): clamps negative input to 0,
upserts, returns the stored amount. -/
def set_token_balance (s : Store) (uid : Int) (amount : Int) : Int × Store :=
  let amt := if amount < 0 then 0 else amount
  (amt, s.set uid (.ival amt))

/-- `add_tokens` (`tokens.py` 114–157): `amount = 0` degenerates to
`get_token_balance`; otherwise reads current (missing row starts from the
default, corrupt coerces to 0), stores `max 0 (current + amount)`. -/
def add_tokens (s : Store) (uid : Int) (amount : Int) : Int × Store :=
  if amount = 0 then get_token_balance s uid
  else
    let current :=
      match s uid with
      | some v => v.toInt
      | none => DEFAULT_START_TOKENS
    let new_balance := max 0 (current + amount)
    (new_balance, s.set uid (.ival new_balance))

/-- `consume_tokens` (`tokens.py` 160–220). `unlimited` is the effective
outcome of the `is_premium_unlimited` check (`false` when the check raises,
since the code then continues with metered logic). -/
def consume_tokens (s : Store) (uid : Int) (amount : Int) (unlimited : Bool) :
    Bool × Store :=
  if amount ≤ 0 then (true, s)
  else if unlimited then (true, s)
  else
    let current :=
      match s uid with
      | some v => v.toInt
      | none => DEFAULT_START_TOKENS
    if current < amount then (false, s)
    else (true, s.set uid (.ival (current - amount)))

/-! ## Admission lock (`ai/request_queue.py`) -/

/-- `RequestLock`: the `_active_requests` dict, existence of a key meaning
"busy" (the stored timestamp is never read by the core, so it is elided). -/
structure Lock where
  active : Int → Bool

/-- `start_request`. -/
def Lock.start (lk : Lock) (uid : Int) : Lock :=
  ⟨fun u => if u = uid then true else lk.active u⟩

/-- `finish_request`. -/
def Lock.finish (lk : Lock) (uid : Int) : Lock :=
  ⟨fun u => if u = uid then false else lk.active u⟩

/-! ## Failure-sentinel classification -/

/-- Byte-for-byte `startswith`: `pre` is an initial segment of `s`. -/
def prefB : List Char → List Char → Bool
  | [], _ => true
  | _ :: _, [] => false
  | a :: as, b :: bs => a == b && prefB as bs

/-- Substring containment on character lists. -/
def subB (pat : List Char) : List Char → Bool
  | [] => prefB pat []
  | c :: cs => prefB pat (c :: cs) || subB pat cs

/-- Python `str.startswith`. -/
def startsB (s pre : String) : Bool := prefB pre.data s.data

/-- Python `pat in s`. -/
def containsSub (s pat : String) : Bool := subB pat.data s.data

/-- Python `str.lower()` restricted to the alphabets the sentinel substrings
use: ASCII letters and the Cyrillic range А–Я plus Ё. -/
def rlowerChar (c : Char) : Char :=
  if 0x41 ≤ c.toNat ∧ c.toNat ≤ 0x5A then Char.ofNat (c.toNat + 32)
  else if 0x410 ≤ c.toNat ∧ c.toNat ≤ 0x42F then Char.ofNat (c.toNat + 32)
  else if c.toNat = 0x401 then Char.ofNat 0x451
  else c

/-- Lower-casing of a whole string. -/
def rlower (s : String) : String := ⟨s.data.map rlowerChar⟩

/-- The orchestrator's `is_error` classification (`handlers_chat.py` 84–93):
marker-glyph prefixes, or any of the fixed failure substrings in the
lower-cased response. -/
def handlerIsError (r : String) : Bool :=
  startsB r "❌" || startsB r "⏳" ||
  containsSub (rlower r) "ошибка" ||
  containsSub (rlower r) "недоступен" ||
  containsSub (rlower r) "попробуйте позже" ||
  containsSub (rlower r) "попробуйте еще раз" ||
  containsSub (rlower r) "временно недоступен" ||
  containsSub (rlower r) "не работает"

/-! ## Orchestrator (`ai/handlers_chat.py`, `_process_message`) -/

/-- The user-visible outcome of one turn. -/
inductive TurnEvent where
  | notice (text : String)
  | reply (text : String)
  | errorNotice
  | dropped
deriving DecidableEq, Repr

/-- The fixed balance-exhausted notice (`handlers_chat.py` 63–66). -/
def lowBalanceNotice (balance : Int) : String :=
  "❗️ Недостаточно токенов. Баланс: " ++ toString balance ++
  ". Нажми «💰 Пополнить баланс» или используй команду /topup."

/-- Where, if anywhere, an unexpected exception interrupts the turn:
nowhere; inside `run_chat_turn` (before any debit); or after the debit
step (context update / reply delivery). -/
inductive ExcPoint where
  | noExc
  | beforeDebit
  | afterDebit
deriving DecidableEq, Repr

/-- Result of one orchestrator turn: the ledger, the lock table, the emitted
event, and whether dispatch (`run_chat_turn`) was invoked at all. -/
structure TurnResult where
  store : Store
  lock : Lock
  event : TurnEvent
  dispatched : Bool

/-- `_process_message` (`handlers_chat.py` 40–144). `unlimited` is the
effective entitlement (`false` when `is_premium_unlimited` raises),
`response` the string produced by `run_chat_turn`, `exc` the exception
point. The `finally` block always releases the lock. -/
def process_message (s : Store) (lk : Lock) (uid : Int) (unlimited : Bool)
    (response : String) (exc : ExcPoint) : TurnResult :=
  let (balance, s1) := get_token_balance s uid
  if !unlimited && balance < 1 then
    { store := s1, lock := lk, event := .notice (lowBalanceNotice balance),
      dispatched := false }
  else
    let lk1 := lk.start uid
    if exc = .beforeDebit then
      -- run_chat_turn raised: tokens_consumed is still false, so the except
      -- branch refunds nothing; finally releases the lock.
      { store := s1, lock := lk1.finish uid, event := .errorNotice,
        dispatched := true }
    else
      let pair :=
        if !unlimited && !(handlerIsError response) then
          consume_tokens s1 uid 1 unlimited
        else (false, s1)
      let consumed := pair.1
      let s2 := pair.2
      if exc = .afterDebit then
        let s3 := if consumed then (add_tokens s2 uid 1).2 else s2
        { store := s3, lock := lk1.finish uid, event := .errorNotice,
          dispatched := true }
      else
        { store := s2, lock := lk1.finish uid, event := .reply response,
          dispatched := true }

/-- `handle_persona_chat_message` (`handlers_chat.py` 147–166): an active
marker drops the message with no state change; otherwise the turn runs. -/
def handle_persona_chat_message (s : Store) (lk : Lock) (uid : Int)
    (unlimited : Bool) (response : String) (exc : ExcPoint) : TurnResult :=
  if lk.active uid then
    { store := s, lock := lk, event := .dropped, dispatched := false }
  else
    process_message s lk uid unlimited response exc

/-! ## Model router (`ai/model_router.py`) -/

/-- `ModelStatus` (`model_router.py` 16–25). Timestamps are integers. -/
structure ModelStatus where
  name : String
  is_working : Bool := true
  last_success_time : Int := 0
  last_failure_time : Int := 0
  consecutive_failures : Nat := 0
  total_requests : Nat := 0
  total_successes : Nat := 0
deriving DecidableEq, Repr

/-- `ModelProvider` (`model_router.py` 28–35). The `send_function` field is
not stored here: provider invocation is supplied to dispatch as a behaviour
keyed by the (unique, a caller precondition) provider name. -/
structure ModelProvider where
  name : String
  status : ModelStatus
  priority : Int := 0
  enabled : Bool := true
deriving DecidableEq, Repr

/-- `ModelRouter`'s mutable state: the registered models and the time of the
last amnesty pass. -/
structure RouterState where
  models : List ModelProvider
  last_cleanup_time : Int
deriving Repr

/-- `_cleanup_interval = 300`. -/
def cleanup_interval : Int := 300

/-- The `sort_key` closure inside `_get_available_models` (90–103):
`(-(priority + recent_success_bonus + working_bonus - failure_penalty),
time_since_success)`. -/
def sort_key (now : Int) (m : ModelProvider) : Int × Int :=
  let time_since_success := now - m.status.last_success_time
  let recent_success_bonus : Int := if time_since_success < 600 then 1000 else 0
  let failure_penalty : Int := (m.status.consecutive_failures : Int) * 100
  let working_bonus : Int := if m.status.is_working then 500 else 0
  (-(m.priority + recent_success_bonus + working_bonus - failure_penalty),
   time_since_success)

/-- Ascending lexicographic comparison of sort keys — the order Python's
stable `list.sort(key=sort_key)` sorts by. -/
def keyLE (now : Int) (a b : ModelProvider) : Bool :=
  decide ((sort_key now a).1 < (sort_key now b).1) ||
    (decide ((sort_key now a).1 = (sort_key now b).1) &&
     decide ((sort_key now a).2 ≤ (sort_key now b).2))

/-- Stable insertion into a sorted list (the standard model of a stable
sort: it produces the same list as Python's stable `list.sort`). -/
def insertLE (le : ModelProvider → ModelProvider → Bool) (a : ModelProvider) :
    List ModelProvider → List ModelProvider
  | [] => [a]
  | b :: l => if le a b then a :: b :: l else b :: insertLE le a l

/-- Stable insertion sort. -/
def sortLE (le : ModelProvider → ModelProvider → Bool) :
    List ModelProvider → List ModelProvider
  | [] => []
  | a :: l => insertLE le a (sortLE le l)

/-- `_get_available_models` (79–106): filter to enabled models, stable-sort
ascending by `sort_key`. -/
def get_available_models (models : List ModelProvider) (now : Int) :
    List ModelProvider :=
  sortLE (keyLE now) (models.filter (fun m => m.enabled))

/-- `_mark_success` (108–114). -/
def markSuccessStatus (st : ModelStatus) (now : Int) : ModelStatus :=
  { st with is_working := true, last_success_time := now,
            consecutive_failures := 0,
            total_requests := st.total_requests + 1,
            total_successes := st.total_successes + 1 }

/-- `_mark_failure` (116–128): record the failure, and at 3 consecutive
failures mark the model as not working. -/
def markFailureStatus (st : ModelStatus) (now : Int) : ModelStatus :=
  let st1 := { st with last_failure_time := now,
                       consecutive_failures := st.consecutive_failures + 1,
                       total_requests := st.total_requests + 1 }
  if st1.consecutive_failures ≥ 3 then { st1 with is_working := false }
  else st1

/-- Applying a status mutation to the named model in `self.models` (names
are unique by the registration precondition). -/
def updateModel (models : List ModelProvider) (name : String)
    (f : ModelStatus → ModelStatus) : List ModelProvider :=
  models.map (fun m => if m.name = name then { m with status := f m.status }
                       else m)

/-- The body of the amnesty loop in `_cleanup_statuses` (138–146): a
non-working model whose last failure is over 600 seconds old is reset. -/
def amnesty (now : Int) (m : ModelProvider) : ModelProvider :=
  if !m.status.is_working && decide (600 < now - m.status.last_failure_time)
  then { m with
         status := { m.status with
                     is_working := true, consecutive_failures := 0 } }
  else m

/-- `_cleanup_statuses` (130–146): a no-op within `cleanup_interval` of the
previous pass; otherwise records the pass time and gives every non-working
model whose last failure is more than 600 seconds old another chance. -/
def cleanup_statuses (rs : RouterState) (now : Int) : RouterState :=
  if now - rs.last_cleanup_time < cleanup_interval then rs
  else
    { last_cleanup_time := now,
      models := rs.models.map (amnesty now) }

/-- The success predicate at `model_router.py` line 198:
`response and not response.startswith("❌") and not response.startswith("⏳")`. -/
def routerSuccess (r : String) : Bool :=
  !r.data.isEmpty && !startsB r "❌" && !startsB r "⏳"

/-- `max_retries_per_model = 3`. -/
def max_retries_per_model : Nat := 3

/-- Sentinel returned when no models are enabled (line 170). -/
def NO_MODELS_SENTINEL : String :=
  "❌ Нет доступных моделей AI. Обратитесь к администратору."

/-- Sentinel returned when every candidate is exhausted (line 243). -/
def ALL_UNAVAILABLE_SENTINEL : String :=
  "❌ Все модели AI временно недоступны. Попробуйте позже."

/-- The inner attempt loop for one model (183–239): each listed attempt
either returns a string (`.ok`) or raises (`.error`); the first attempt
whose result passes `routerSuccess` wins, every other outcome is absorbed
and retried until the attempt list is exhausted. -/
def tryAttempts (beh : Nat → Except String String) :
    List Nat → Option String
  | [] => none
  | a :: rest =>
    match beh a with
    | .ok r => if routerSuccess r then some r else tryAttempts beh rest
    | .error _ => tryAttempts beh rest

/-- The outer fallback loop over the candidate snapshot (179–243): a model
that yields a successful response is marked successful and its response
returned at once; a model that exhausts its attempts is marked failed and
the loop advances; an empty remainder yields the exhaustion sentinel. -/
def dispatchLoop (beh : String → Nat → Except String String) (now : Int)
    (models : List ModelProvider) :
    List ModelProvider → String × List ModelProvider
  | [] => (ALL_UNAVAILABLE_SENTINEL, models)
  | m :: rest =>
    match tryAttempts (beh m.name) (List.range max_retries_per_model) with
    | some r => (r, updateModel models m.name (fun st => markSuccessStatus st now))
    | none =>
      dispatchLoop beh now
        (updateModel models m.name (fun st => markFailureStatus st now)) rest

/-- `ModelRouter.send_chat_completion` (148–243): amnesty sweep, candidate
snapshot, then retry/fallback. Returns the response string and the updated
router state. -/
def send_chat_completion (rs : RouterState) (now : Int)
    (beh : String → Nat → Except String String) : String × RouterState :=
  let rs1 := cleanup_statuses rs now
  let avail := get_available_models rs1.models now
  match avail with
  | [] => (NO_MODELS_SENTINEL, rs1)
  | _ :: _ =>
    let res := dispatchLoop beh now rs1.models avail
    (res.1, { rs1 with models := res.2 })

/-- The claim's (spec §6) classification, stated as a success predicate:
non-empty, no marker-glyph prefix, and — unlike the code at
`model_router.py` line 198 — none of the fixed failure substrings in the
lower-cased text. Named after the spec for comparison with `routerSuccess`. -/
def specRouterSuccess (r : String) : Bool :=
  !r.data.isEmpty && !startsB r "❌" && !startsB r "⏳" &&
  !containsSub (rlower r) "ошибка" &&
  !containsSub (rlower r) "недоступен" &&
  !containsSub (rlower r) "попробуйте позже" &&
  !containsSub (rlower r) "попробуйте еще раз" &&
  !containsSub (rlower r) "временно недоступен" &&
  !containsSub (rlower r) "не работает"

/-! ## Derived notions used by the statements -/

/-- The composite candidate score described by the ranking policy:
`priority + recent_success_bonus + working_bonus - failure_penalty`. -/
def specScore (now : Int) (m : ModelProvider) : Int :=
  m.priority + (if now - m.status.last_success_time < 600 then 1000 else 0) +
    (if m.status.is_working then 500 else 0) -
    (m.status.consecutive_failures : Int) * 100

/-- The ledger invariant: every properly stored token value is non-negative. -/
def StoreNonneg (s : Store) : Prop :=
  ∀ u n, s u = some (.ival n) → 0 ≤ n

/-- An attempt outcome that the router classifies as a failure: either an
exception, or a returned string failing `routerSuccess`. -/
def attemptFails (e : Except String String) : Prop :=
  ∀ r, e = .ok r → routerSuccess r = false

/-- The lazy-creating store transformation of one `get_token_balance` call
for a fixed user. -/
def getStep (uid : Int) (st : Store) : Store :=
  (get_token_balance st uid).2

/-! ## Concrete inputs used by the witnesses -/

/-- A store holding 5 tokens for user 7 and nothing else. -/
def demoStore5 : Store := fun u => if u = 7 then some (.ival 5) else none

/-- A store holding 0 tokens for user 7 and nothing else. -/
def demoStore0 : Store := fun u => if u = 7 then some (.ival 0) else none

/-- The empty store. -/
def demoStoreNone : Store := fun _ => none

/-- A lock table with no active request. -/
def demoLock : Lock := ⟨fun _ => false⟩

/-- A single registered, enabled, healthy provider. -/
def demoProvider : ModelProvider :=
  { name := "P", status := { name := "P" }, priority := 100, enabled := true }

/-- A router that has just been initialised with `demoProvider`. -/
def demoState : RouterState := { models := [demoProvider], last_cleanup_time := 0 }

/-- A provider currently marked broken after three failures at time 0. -/
def demoBroken : ModelProvider :=
  { name := "B",
    status := { name := "B", is_working := false, last_failure_time := 0,
                consecutive_failures := 3 },
    priority := 100, enabled := true }

/-- A router holding only the broken provider, last swept at time 0. -/
def demoBrokenState : RouterState :=
  { models := [demoBroken], last_cleanup_time := 0 }

/-- A behaviour whose every invocation raises. -/
def demoBehBoom : String → Nat → Except String String :=
  fun _ _ => .error "boom"

/-- A behaviour returning an error-shaped string that carries no marker
glyph: the router accepts it, the orchestrator's classifier does not. -/
def demoBehText : String → Nat → Except String String :=
  fun _ _ => .ok "Произошла ошибка"

/-- A behaviour returning ordinary conversational text. -/
def demoBehOk : String → Nat → Except String String :=
  fun _ _ => .ok "Привет"

/-! ## Helper lemmas: the stable sort -/

theorem insertLE_perm (le : ModelProvider → ModelProvider → Bool)
    (a : ModelProvider) (l : List ModelProvider) :
    (insertLE le a l).Perm (a :: l) := by
  induction l with
  | nil => exact List.Perm.refl _
  | cons b l ih =>
    unfold insertLE
    by_cases h : le a b = true
    · rw [if_pos h]
    · rw [if_neg h]
      exact (ih.cons b).trans (List.Perm.swap a b l)

theorem sortLE_perm (le : ModelProvider → ModelProvider → Bool)
    (l : List ModelProvider) : (sortLE le l).Perm l := by
  induction l with
  | nil => exact List.Perm.refl _
  | cons a l ih => exact (insertLE_perm le a (sortLE le l)).trans (ih.cons a)

theorem mem_insertLE (le : ModelProvider → ModelProvider → Bool)
    (a x : ModelProvider) (l : List ModelProvider) :
    x ∈ insertLE le a l ↔ x = a ∨ x ∈ l :=
  ((insertLE_perm le a l).mem_iff).trans List.mem_cons

theorem pairwise_insertLE (le : ModelProvider → ModelProvider → Bool)
    (htot : ∀ a b, le a b = true ∨ le b a = true)
    (htr : ∀ a b c, le a b = true → le b c = true → le a c = true)
    (a : ModelProvider) (l : List ModelProvider)
    (h : l.Pairwise (fun x y => le x y = true)) :
    (insertLE le a l).Pairwise (fun x y => le x y = true) := by
  induction l with
  | nil => simp [insertLE]
  | cons b l ih =>
    rw [List.pairwise_cons] at h
    obtain ⟨hb, hl⟩ := h
    unfold insertLE
    by_cases hab : le a b = true
    · rw [if_pos hab, List.pairwise_cons]
      refine ⟨?_, List.pairwise_cons.mpr ⟨hb, hl⟩⟩
      intro x hx
      rcases List.mem_cons.mp hx with rfl | hx
      · exact hab
      · exact htr a b x hab (hb x hx)
    · rw [if_neg hab, List.pairwise_cons]
      refine ⟨?_, ih hl⟩
      intro x hx
      rcases (mem_insertLE le a x l).mp hx with hxa | hx
      · subst hxa
        rcases htot x b with h1 | h1
        · exact absurd h1 hab
        · exact h1
      · exact hb x hx

theorem pairwise_sortLE (le : ModelProvider → ModelProvider → Bool)
    (htot : ∀ a b, le a b = true ∨ le b a = true)
    (htr : ∀ a b c, le a b = true → le b c = true → le a c = true)
    (l : List ModelProvider) :
    (sortLE le l).Pairwise (fun x y => le x y = true) := by
  induction l with
  | nil => simp [sortLE]
  | cons a l ih => exact pairwise_insertLE le htot htr a _ ih

theorem keyLE_iff (now : Int) (a b : ModelProvider) :
    keyLE now a b = true ↔
      (sort_key now a).1 < (sort_key now b).1 ∨
        ((sort_key now a).1 = (sort_key now b).1 ∧
          (sort_key now a).2 ≤ (sort_key now b).2) := by
  simp [keyLE]

theorem keyLE_total (now : Int) (a b : ModelProvider) :
    keyLE now a b = true ∨ keyLE now b a = true := by
  rw [keyLE_iff, keyLE_iff]
  rcases lt_trichotomy (sort_key now a).1 (sort_key now b).1 with h | h | h
  · exact Or.inl (Or.inl h)
  · rcases le_total (sort_key now a).2 (sort_key now b).2 with h2 | h2
    · exact Or.inl (Or.inr ⟨h, h2⟩)
    · exact Or.inr (Or.inr ⟨h.symm, h2⟩)
  · exact Or.inr (Or.inl h)

theorem keyLE_trans (now : Int) (a b c : ModelProvider)
    (hab : keyLE now a b = true) (hbc : keyLE now b c = true) :
    keyLE now a c = true := by
  rw [keyLE_iff] at hab hbc ⊢
  rcases hab with h1 | ⟨h1, h1'⟩ <;> rcases hbc with h2 | ⟨h2, h2'⟩
  · exact Or.inl (h1.trans h2)
  · exact Or.inl (h2 ▸ h1)
  · exact Or.inl (h1 ▸ h2)
  · exact Or.inr ⟨h1.trans h2, h1'.trans h2'⟩

theorem sort_key_fst (now : Int) (m : ModelProvider) :
    (sort_key now m).1 = -specScore now m := by
  simp only [sort_key, specScore]

theorem sort_key_snd (now : Int) (m : ModelProvider) :
    (sort_key now m).2 = now - m.status.last_success_time := rfl

theorem keyLE_iff_spec (now : Int) (a b : ModelProvider) :
    keyLE now a b = true ↔
      (specScore now b < specScore now a ∨
        (specScore now a = specScore now b ∧
          now - a.status.last_success_time ≤ now - b.status.last_success_time)) := by
  rw [keyLE_iff, sort_key_fst, sort_key_fst, sort_key_snd, sort_key_snd]
  constructor
  · rintro (h | ⟨h, h'⟩)
    · exact Or.inl (by omega)
    · exact Or.inr ⟨by omega, h'⟩
  · rintro (h | ⟨h, h'⟩)
    · exact Or.inl (by omega)
    · exact Or.inr ⟨by omega, h'⟩

/-! ## Helper lemmas: dispatch and the amnesty sweep -/

theorem tryAttempts_some (beh : Nat → Except String String)
    (attempts : List Nat) (r : String)
    (h : tryAttempts beh attempts = some r) :
    ∃ a ∈ attempts, beh a = .ok r ∧ routerSuccess r = true := by
  induction attempts with
  | nil => simp [tryAttempts] at h
  | cons a rest ih =>
    cases hb : beh a with
    | ok s =>
      simp only [tryAttempts, hb] at h
      by_cases hs : routerSuccess s = true
      · rw [if_pos hs] at h
        obtain rfl : s = r := Option.some.inj h
        exact ⟨a, List.mem_cons_self a rest, hb, hs⟩
      · rw [if_neg hs] at h
        obtain ⟨a', ha', hb', hs'⟩ := ih h
        exact ⟨a', List.mem_cons_of_mem a ha', hb', hs'⟩
    | error e =>
      simp only [tryAttempts, hb] at h
      obtain ⟨a', ha', hb', hs'⟩ := ih h
      exact ⟨a', List.mem_cons_of_mem a ha', hb', hs'⟩

theorem tryAttempts_none (beh : Nat → Except String String)
    (attempts : List Nat)
    (h : ∀ a, attemptFails (beh a)) :
    tryAttempts beh attempts = none := by
  induction attempts with
  | nil => rfl
  | cons a rest ih =>
    cases hb : beh a with
    | ok s =>
      simp only [tryAttempts, hb]
      rw [if_neg]
      · exact ih
      · rw [h a s hb]
        exact Bool.false_ne_true
    | error e =>
      simp only [tryAttempts, hb]
      exact ih

theorem dispatchLoop_classify (beh : String → Nat → Except String String)
    (now : Int) (cands : List ModelProvider) :
    ∀ models : List ModelProvider,
      (dispatchLoop beh now models cands).1 = ALL_UNAVAILABLE_SENTINEL ∨
        ∃ m ∈ cands, ∃ a < max_retries_per_model,
          beh m.name a = .ok (dispatchLoop beh now models cands).1 ∧
          routerSuccess (dispatchLoop beh now models cands).1 = true := by
  induction cands with
  | nil => intro models; exact Or.inl rfl
  | cons m rest ih =>
    intro models
    unfold dispatchLoop
    cases ht : tryAttempts (beh m.name) (List.range max_retries_per_model) with
    | some r =>
      obtain ⟨a, ha, hb, hs⟩ := tryAttempts_some _ _ _ ht
      exact Or.inr ⟨m, List.mem_cons_self m rest,
        a, List.mem_range.mp ha, hb, hs⟩
    | none =>
      rcases ih (updateModel models m.name (fun st => markFailureStatus st now))
        with h | ⟨m', hm', a, ha, hb, hs⟩
      · exact Or.inl h
      · exact Or.inr ⟨m', List.mem_cons_of_mem m hm', a, ha, hb, hs⟩

theorem dispatchLoop_all_fail (beh : String → Nat → Except String String)
    (now : Int) (cands : List ModelProvider)
    (h : ∀ name a, attemptFails (beh name a)) :
    ∀ models : List ModelProvider,
      (dispatchLoop beh now models cands).1 = ALL_UNAVAILABLE_SENTINEL := by
  induction cands with
  | nil => intro models; rfl
  | cons m rest ih =>
    intro models
    unfold dispatchLoop
    rw [tryAttempts_none (beh m.name) _ (fun a => h m.name a)]
    exact ih _

theorem amnesty_enabled (now : Int) (m : ModelProvider) :
    (amnesty now m).enabled = m.enabled := by
  unfold amnesty
  split <;> rfl

theorem cleanup_models (rs : RouterState) (now : Int) :
    (cleanup_statuses rs now).models = rs.models ∨
      (cleanup_statuses rs now).models = rs.models.map (amnesty now) := by
  unfold cleanup_statuses
  split
  · exact Or.inl rfl
  · exact Or.inr rfl

theorem filter_enabled_map (f : ModelProvider → ModelProvider)
    (hf : ∀ m, (f m).enabled = m.enabled) (l : List ModelProvider) :
    (l.map f).filter (fun m => m.enabled) =
      (l.filter (fun m => m.enabled)).map f := by
  induction l with
  | nil => rfl
  | cons m l ih =>
    simp only [List.map_cons, List.filter_cons, hf m]
    cases he : m.enabled
    · simpa [he] using ih
    · simpa [he] using ih

theorem cleanup_filter_nil_iff (rs : RouterState) (now : Int) :
    (cleanup_statuses rs now).models.filter (fun m => m.enabled) = [] ↔
      rs.models.filter (fun m => m.enabled) = [] := by
  rcases cleanup_models rs now with h | h
  · rw [h]
  · rw [h, filter_enabled_map (amnesty now) (amnesty_enabled now)]
    simp

theorem get_available_nil_iff (models : List ModelProvider) (now : Int) :
    get_available_models models now = [] ↔
      models.filter (fun m => m.enabled) = [] := by
  unfold get_available_models
  constructor
  · intro h
    have hp := sortLE_perm (keyLE now) (models.filter (fun m => m.enabled))
    rw [h] at hp
    exact hp.symm.eq_nil
  · intro h
    rw [h]
    rfl

/-! ## Ledger claims -/

/-- C4: `consume_tokens` returns `true` without any ledger mutation for
every `amount ≤ 0`; otherwise, for a metered user with stored balance `b`,
it returns `false` without mutation when `b < amount`, and stores
`b - amount` and returns `true` when `amount ≤ b`. -/
theorem consume_tokens_contract (s : Store) (uid : Int) (amount b : Int) :
    (∀ u : Bool, amount ≤ 0 → consume_tokens s uid amount u = (true, s)) ∧
    (0 < amount → s uid = some (.ival b) → b < amount →
      consume_tokens s uid amount false = (false, s)) ∧
    (0 < amount → s uid = some (.ival b) → amount ≤ b →
      consume_tokens s uid amount false =
        (true, s.set uid (.ival (b - amount)))) := by
  refine ⟨?_, ?_, ?_⟩
  · intro u h
    unfold consume_tokens
    rw [if_pos h]
  · intro h0 hb hlt
    have hn : ¬(amount ≤ 0) := by omega
    simp [consume_tokens, hb, hn, StoredTokens.toInt, hlt]
  · intro h0 hb hle
    have hn : ¬(amount ≤ 0) := by omega
    have hnl : ¬(b < amount) := by omega
    simp [consume_tokens, hb, hn, StoredTokens.toInt, hnl]

/-- Witness for C4: a concrete metered debit of 1 from a balance of 5. -/
theorem consume_tokens_contract_witness :
    consume_tokens demoStore5 7 1 false =
      (true, Store.set demoStore5 7 (.ival (5 - 1))) :=
  (consume_tokens_contract demoStore5 7 1 5).2.2 (by decide) (by decide)
    (by decide)

/-- C5: every cell of the store after `set_token_balance`, `add_tokens` or
`consume_tokens` is either the untouched old cell or a freshly written
non-negative integer; consequently `tokens ≥ 0` is an invariant preserved
by the ledger's own writes. -/
theorem ledger_writes_nonneg (s : Store) (uid amount : Int) (unl : Bool) :
    (∀ u, (set_token_balance s uid amount).2 u = s u ∨
      ∃ n, (set_token_balance s uid amount).2 u = some (.ival n) ∧ 0 ≤ n) ∧
    (∀ u, (add_tokens s uid amount).2 u = s u ∨
      ∃ n, (add_tokens s uid amount).2 u = some (.ival n) ∧ 0 ≤ n) ∧
    (∀ u, (consume_tokens s uid amount unl).2 u = s u ∨
      ∃ n, (consume_tokens s uid amount unl).2 u = some (.ival n) ∧ 0 ≤ n) ∧
    (StoreNonneg s → StoreNonneg (set_token_balance s uid amount).2) ∧
    (StoreNonneg s → StoreNonneg (add_tokens s uid amount).2) ∧
    (StoreNonneg s → StoreNonneg (consume_tokens s uid amount unl).2) := by
  have key : ∀ t : Store,
      (∀ u, t u = s u ∨ ∃ n, t u = some (.ival n) ∧ 0 ≤ n) →
      StoreNonneg s → StoreNonneg t := by
    intro t ht hs u n hn
    rcases ht u with he | ⟨n', hn', h0⟩
    · exact hs u n (he ▸ hn)
    · rw [hn] at hn'
      obtain rfl : n = n' := by
        simpa using hn'
      exact h0
  have hset : ∀ u, (set_token_balance s uid amount).2 u = s u ∨
      ∃ n, (set_token_balance s uid amount).2 u = some (.ival n) ∧ 0 ≤ n := by
    intro u
    unfold set_token_balance Store.set
    by_cases h : u = uid
    · exact Or.inr ⟨if amount < 0 then 0 else amount, by simp [h],
        by split <;> omega⟩
    · exact Or.inl (by simp [h])
  have hadd : ∀ u, (add_tokens s uid amount).2 u = s u ∨
      ∃ n, (add_tokens s uid amount).2 u = some (.ival n) ∧ 0 ≤ n := by
    intro u
    unfold add_tokens
    by_cases h0 : amount = 0
    · rw [if_pos h0]
      unfold get_token_balance
      cases hrow : s uid with
      | some v => exact Or.inl rfl
      | none =>
        by_cases h : u = uid
        · exact Or.inr ⟨DEFAULT_START_TOKENS, by simp [Store.set, h],
            by norm_num [DEFAULT_START_TOKENS]⟩
        · exact Or.inl (by simp [Store.set, h])
    · rw [if_neg h0]
      by_cases h : u = uid
      · exact Or.inr ⟨max 0 ((match s uid with
          | some v => v.toInt
          | none => DEFAULT_START_TOKENS) + amount),
          by simp [Store.set, h], le_max_left _ _⟩
      · exact Or.inl (by simp [Store.set, h])
  have hcons : ∀ u, (consume_tokens s uid amount unl).2 u = s u ∨
      ∃ n, (consume_tokens s uid amount unl).2 u = some (.ival n) ∧ 0 ≤ n := by
    intro u
    unfold consume_tokens
    by_cases hle : amount ≤ 0
    · rw [if_pos hle]; exact Or.inl rfl
    · rw [if_neg hle]
      cases unl with
      | true => exact Or.inl rfl
      | false =>
        simp only [Bool.false_eq_true, if_false]
        set current := (match s uid with
          | some v => v.toInt
          | none => DEFAULT_START_TOKENS) with hcur
        by_cases hlt : current < amount
        · rw [if_pos hlt]; exact Or.inl rfl
        · rw [if_neg hlt]
          by_cases h : u = uid
          · exact Or.inr ⟨current - amount, by simp [Store.set, h], by omega⟩
          · exact Or.inl (by simp [Store.set, h])
  exact ⟨hset, hadd, hcons, key _ hset, key _ hadd, key _ hcons⟩

/-- Witness for C5: a negative `set_token_balance` still writes a
non-negative value. -/
theorem ledger_writes_nonneg_witness :
    (set_token_balance demoStore5 7 (-3)).2 7 = demoStore5 7 ∨
      ∃ n, (set_token_balance demoStore5 7 (-3)).2 7 = some (.ival n) ∧
        0 ≤ n :=
  (ledger_writes_nonneg demoStore5 7 (-3) false).1 7

/-- C6: the first `get_token_balance` for an unseen user returns the
configured default and persists it; any later call for a user with a stored
balance returns that persisted value without touching the store, so
repeating the call any number of times is the identity on the store and
keeps returning the persisted default. -/
theorem lazy_create_idempotent (s : Store) (uid : Int) (h : s uid = none) :
    (get_token_balance s uid).1 = DEFAULT_START_TOKENS ∧
    (getStep uid s) uid = some (.ival DEFAULT_START_TOKENS) ∧
    (∀ (s' : Store) (b : Int), s' uid = some (.ival b) →
      get_token_balance s' uid = (b, s')) ∧
    (∀ n : Nat, (getStep uid)^[n] (getStep uid s) = getStep uid s) ∧
    (∀ n : Nat,
      (get_token_balance ((getStep uid)^[n] (getStep uid s)) uid).1 =
        DEFAULT_START_TOKENS) := by
  have hpersist : ∀ (s' : Store) (b : Int), s' uid = some (.ival b) →
      get_token_balance s' uid = (b, s') := by
    intro s' b hb
    simp [get_token_balance, hb, StoredTokens.toInt]
  have hcell : (getStep uid s) uid = some (.ival DEFAULT_START_TOKENS) := by
    simp [getStep, get_token_balance, h, Store.set]
  have hfix : getStep uid (getStep uid s) = getStep uid s := by
    have h2 := hpersist (getStep uid s) DEFAULT_START_TOKENS hcell
    show (get_token_balance (getStep uid s) uid).2 = getStep uid s
    rw [h2]
  have hiter : ∀ n : Nat,
      (getStep uid)^[n] (getStep uid s) = getStep uid s := by
    intro n
    induction n with
    | zero => rfl
    | succ k ih => rw [Function.iterate_succ_apply', ih, hfix]
  refine ⟨by simp [get_token_balance, h], hcell, hpersist, hiter, ?_⟩
  intro n
  rw [hiter n, hpersist (getStep uid s) DEFAULT_START_TOKENS hcell]

/-- Witness for C6: the first call for an unseen user returns the default,
and a million repeat calls leave the store exactly where the first one
put it. -/
theorem lazy_create_idempotent_witness :
    (get_token_balance demoStoreNone 7).1 = DEFAULT_START_TOKENS ∧
    (getStep 7)^[1000000] (getStep 7 demoStoreNone) =
      getStep 7 demoStoreNone := by
  have h := lazy_create_idempotent demoStoreNone 7 (by decide)
  exact ⟨h.1, h.2.2.2.1 1000000⟩

/-! ## Orchestrator claims -/

/-- C1: in a metered turn that passed admission (stored balance `b ≥ 1`),
a dispatch outcome classified as success debits exactly 1 token, and an
outcome classified as a failure sentinel leaves the balance unchanged. -/
theorem debit_correctness (s : Store) (lk : Lock) (uid b : Int) (r : String)
    (hb : s uid = some (.ival b)) (h1 : 1 ≤ b) :
    (handlerIsError r = false →
      (process_message s lk uid false r .noExc).store uid =
        some (.ival (b - 1))) ∧
    (handlerIsError r = true →
      (process_message s lk uid false r .noExc).store uid =
        some (.ival b)) := by
  have hnl : ¬(b < 1) := by omega
  have hn0 : ¬((1 : Int) ≤ 0) := by norm_num
  constructor
  · intro herr
    simp [process_message, get_token_balance, hb, StoredTokens.toInt, hnl,
      herr, consume_tokens, hn0, Store.set]
  · intro herr
    simp [process_message, get_token_balance, hb, StoredTokens.toInt, hnl,
      herr, hb]

/-- Witness for C1: a successful reply debits user 7 from 5 to 4. -/
theorem debit_correctness_witness :
    (process_message demoStore5 demoLock 7 false "Привет" .noExc).store 7 =
      some (.ival (5 - 1)) :=
  (debit_correctness demoStore5 demoLock 7 5 "Привет" (by decide)
    (by decide)).1 (by decide)

/-- C3: a metered user with stored balance 0 is turned away before
anything happens: dispatch is not invoked, no lock is taken, the store is
untouched, and the fixed balance-exhausted notice is emitted. -/
theorem admission_gating (s : Store) (lk : Lock) (uid : Int) (r : String)
    (exc : ExcPoint) (hb : s uid = some (.ival 0)) :
    process_message s lk uid false r exc =
      { store := s, lock := lk, event := .notice (lowBalanceNotice 0),
        dispatched := false } := by
  have h01 : (0 : Int) < 1 := by norm_num
  simp [process_message, get_token_balance, hb, StoredTokens.toInt, h01]

/-- Witness for C3 at a concrete zero-balance store. -/
theorem admission_gating_witness :
    process_message demoStore0 demoLock 7 false "x" .noExc =
      { store := demoStore0, lock := demoLock,
        event := .notice (lowBalanceNotice 0), dispatched := false } :=
  admission_gating demoStore0 demoLock 7 "x" .noExc (by decide)

/-- C10: when an exception interrupts the turn after a successful debit,
the orchestrator refunds the single token — the stored balance ends where
it started — and the `finally` block still removes the admission marker. -/
theorem exception_refund (s : Store) (lk : Lock) (uid b : Int) (r : String)
    (hb : s uid = some (.ival b)) (h1 : 1 ≤ b)
    (hr : handlerIsError r = false) :
    (process_message s lk uid false r .afterDebit).store uid =
      some (.ival b) ∧
    (process_message s lk uid false r .afterDebit).lock.active uid = false ∧
    (process_message s lk uid false r .afterDebit).event = .errorNotice := by
  have hnl : ¬(b < 1) := by omega
  have hn0 : ¬((1 : Int) ≤ 0) := by norm_num
  have hmax : max 0 (b - 1 + 1) = b := by omega
  have h0b : (0 : Int) ≤ b := by omega
  refine ⟨?_, ?_, ?_⟩ <;>
    simp [process_message, get_token_balance, hb, StoredTokens.toInt, hnl,
      hr, consume_tokens, hn0, add_tokens, Store.set, Lock.start, Lock.finish,
      hmax, h0b]

/-- Witness for C10: the post-debit exception path restores user 7's
balance to 5 and leaves no admission marker. -/
theorem exception_refund_witness :
    (process_message demoStore5 demoLock 7 false "Привет" .afterDebit).store
        7 = some (.ival 5) ∧
    (process_message demoStore5 demoLock 7 false
        "Привет" .afterDebit).lock.active 7 = false := by
  have h := exception_refund demoStore5 demoLock 7 5 "Привет" (by decide)
    (by decide) (by decide)
  exact ⟨h.1, h.2.1⟩

/-! ## Router claims -/

theorem cleanup_noop (rs : RouterState) (now : Int)
    (h : now - rs.last_cleanup_time < cleanup_interval) :
    cleanup_statuses rs now = rs := by
  unfold cleanup_statuses
  rw [if_pos h]

theorem cleanup_run (rs : RouterState) (now : Int)
    (h : cleanup_interval ≤ now - rs.last_cleanup_time) :
    cleanup_statuses rs now =
      { last_cleanup_time := now,
        models := rs.models.map (amnesty now) } := by
  unfold cleanup_statuses
  rw [if_neg (by omega)]

theorem send_eq_no_models (rs : RouterState) (now : Int)
    (beh : String → Nat → Except String String)
    (h : get_available_models (cleanup_statuses rs now).models now = []) :
    send_chat_completion rs now beh =
      (NO_MODELS_SENTINEL, cleanup_statuses rs now) := by
  simp only [send_chat_completion, h]

theorem send_eq_loop (rs : RouterState) (now : Int)
    (beh : String → Nat → Except String String) (m : ModelProvider)
    (rest : List ModelProvider)
    (h : get_available_models (cleanup_statuses rs now).models now =
      m :: rest) :
    send_chat_completion rs now beh =
      ((dispatchLoop beh now (cleanup_statuses rs now).models (m :: rest)).1,
       { models :=
           (dispatchLoop beh now (cleanup_statuses rs now).models
             (m :: rest)).2,
         last_cleanup_time := (cleanup_statuses rs now).last_cleanup_time }) := by
  simp only [send_chat_completion, h]

/-- C7: the candidate list is exactly the enabled providers — non-working
ones included — ordered by descending composite score
`priority + recent_success_bonus + working_bonus - failure_penalty`, ties
broken by ascending time since the last success. -/
theorem fallback_ordering (models : List ModelProvider) (now : Int) :
    (get_available_models models now).Perm
      (models.filter (fun m => m.enabled)) ∧
    (get_available_models models now).Pairwise (fun a b =>
      specScore now b < specScore now a ∨
        (specScore now a = specScore now b ∧
          now - a.status.last_success_time ≤
            now - b.status.last_success_time)) := by
  constructor
  · exact sortLE_perm (keyLE now) _
  · have hp := pairwise_sortLE (keyLE now) (keyLE_total now) (keyLE_trans now)
      (models.filter (fun m => m.enabled))
    exact hp.imp (fun h => (keyLE_iff_spec now _ _).mp h)

/-- C9: the amnesty sweep is a no-op within 5 minutes of the previous pass;
when it runs it stamps the pass time and resets exactly the non-working
providers whose last failure is over 10 minutes old (no success required),
leaving the rest untouched — so a second sweep within the interval changes
nothing. -/
theorem amnesty_sweep (rs : RouterState) (now now2 : Int) :
    (now - rs.last_cleanup_time < cleanup_interval →
      cleanup_statuses rs now = rs) ∧
    (cleanup_interval ≤ now - rs.last_cleanup_time →
      (cleanup_statuses rs now).last_cleanup_time = now ∧
      ∀ (i : Nat) (m : ModelProvider), rs.models[i]? = some m →
        (m.status.is_working = false →
          600 < now - m.status.last_failure_time →
          (cleanup_statuses rs now).models[i]? =
            some { m with
                   status := { m.status with
                               is_working := true,
                               consecutive_failures := 0 } }) ∧
        (m.status.is_working = true ∨ now - m.status.last_failure_time ≤ 600 →
          (cleanup_statuses rs now).models[i]? = some m)) ∧
    (cleanup_interval ≤ now - rs.last_cleanup_time →
      now2 - now < cleanup_interval →
      cleanup_statuses (cleanup_statuses rs now) now2 =
        cleanup_statuses rs now) := by
  refine ⟨cleanup_noop rs now, ?_, ?_⟩
  · intro hge
    rw [cleanup_run rs now hge]
    refine ⟨rfl, ?_⟩
    intro i m hm
    constructor
    · intro hw h600
      simp only [List.getElem?_map, hm, Option.map_some']
      rw [show amnesty now m = { m with
            status := { m.status with
                        is_working := true,
                        consecutive_failures := 0 } } from by
        unfold amnesty
        rw [if_pos (by simp [hw, h600])]]
    · intro hcase
      simp only [List.getElem?_map, hm, Option.map_some']
      rw [show amnesty now m = m from by
        unfold amnesty
        rw [if_neg ?_]
        rcases hcase with hw | h600
        · simp [hw]
        · simp
          intro hnw
          omega]
  · intro hge hlt2
    apply cleanup_noop
    rw [cleanup_run rs now hge]
    exact hlt2

/-- Witness for C9: at time 1000 the sweep revives a provider broken since
time 0 and stamps the pass. -/
theorem amnesty_sweep_witness :
    (cleanup_statuses demoBrokenState 1000).models[0]? =
      some { demoBroken with
             status := { demoBroken.status with
                         is_working := true, consecutive_failures := 0 } } ∧
    (cleanup_statuses demoBrokenState 1000).last_cleanup_time = 1000 := by
  have h := (amnesty_sweep demoBrokenState 1000 0).2.1 (by decide)
  exact ⟨(h.2 0 demoBroken (by decide)).1 (by decide) (by decide), h.1⟩

/-- C8: `dispatch` is total — for every registered provider list and every
behaviour of the invoke functions (exceptions included) it returns a
string: the fixed no-providers sentinel when nothing is enabled; the fixed
all-unavailable sentinel when every candidate exhausts its attempt ceiling
without a success; and otherwise a response some candidate produced within
its attempt ceiling that passed the success check. -/
theorem dispatch_total_and_sentinels (rs : RouterState) (now : Int)
    (beh : String → Nat → Except String String) :
    ((∀ m ∈ rs.models, m.enabled = false) →
      (send_chat_completion rs now beh).1 = NO_MODELS_SENTINEL) ∧
    ((∃ m ∈ rs.models, m.enabled = true) →
      (∀ name a, attemptFails (beh name a)) →
      (send_chat_completion rs now beh).1 = ALL_UNAVAILABLE_SENTINEL) ∧
    ((send_chat_completion rs now beh).1 = NO_MODELS_SENTINEL ∨
      (send_chat_completion rs now beh).1 = ALL_UNAVAILABLE_SENTINEL ∨
      ∃ m ∈ get_available_models (cleanup_statuses rs now).models now,
        ∃ a < max_retries_per_model,
          beh m.name a = .ok (send_chat_completion rs now beh).1 ∧
          routerSuccess (send_chat_completion rs now beh).1 = true) := by
  refine ⟨?_, ?_, ?_⟩
  · intro hdis
    have hfil : rs.models.filter (fun m => m.enabled) = [] := by
      rw [List.filter_eq_nil_iff]
      intro m hm
      simp [hdis m hm]
    have havail :
        get_available_models (cleanup_statuses rs now).models now = [] :=
      (get_available_nil_iff _ now).mpr
        ((cleanup_filter_nil_iff rs now).mpr hfil)
    rw [send_eq_no_models rs now beh havail]
  · rintro ⟨m, hm, hen⟩ hfail
    have hfil : ¬rs.models.filter (fun m => m.enabled) = [] := by
      rw [List.filter_eq_nil_iff]
      intro hall
      exact (hall m hm) (by simp [hen])
    have havail :
        ¬get_available_models (cleanup_statuses rs now).models now = [] := by
      intro h
      exact hfil ((cleanup_filter_nil_iff rs now).mp
        ((get_available_nil_iff _ now).mp h))
    obtain ⟨c, rest, hcr⟩ := List.exists_cons_of_ne_nil havail
    rw [send_eq_loop rs now beh c rest hcr]
    exact dispatchLoop_all_fail beh now (c :: rest) hfail _
  · cases havail :
      get_available_models (cleanup_statuses rs now).models now with
    | nil =>
      rw [send_eq_no_models rs now beh havail]
      exact Or.inl rfl
    | cons c rest =>
      rw [send_eq_loop rs now beh c rest havail]
      rcases dispatchLoop_classify beh now (c :: rest)
          (cleanup_statuses rs now).models with h | ⟨m, hm, a, ha, hb, hs⟩
      · exact Or.inr (Or.inl h)
      · exact Or.inr (Or.inr ⟨m, havail ▸ hm, a, ha, hb, hs⟩)

/-- Witness for C8: one enabled provider whose every invocation raises
yields the all-unavailable sentinel, with every exception absorbed. -/
theorem dispatch_total_and_sentinels_witness :
    (send_chat_completion demoState 5 demoBehBoom).1 =
      ALL_UNAVAILABLE_SENTINEL :=
  (dispatch_total_and_sentinels demoState 5 demoBehBoom).2.1
    ⟨demoProvider, by decide, by decide⟩
    (fun _ _ _ h => nomatch h)

/-- C2 fails as stated: the router's own success check looks only at the
`❌`/`⏳` prefixes, so a returned text that merely contains a failure
substring ("Произошла ошибка") is classified a success — the router
returns it at once and marks the provider successful — although the
spec's §6 classification calls it a failure. -/
theorem router_substring_counterexample :
    specRouterSuccess "Произошла ошибка" = false ∧
    routerSuccess "Произошла ошибка" = true ∧
    (send_chat_completion demoState 0 demoBehText).1 = "Произошла ошибка" ∧
    ((send_chat_completion demoState 0 demoBehText).2.models.map
        (fun m => (m.status.is_working, m.status.consecutive_failures,
                   m.status.total_successes))) = [(true, 0, 1)] := by
  refine ⟨by decide, by decide, by decide, by decide⟩

/-- C2 (amended): the router classifies a provider attempt as success
exactly when the returned text is non-empty and starts with neither `❌`
nor `⏳` (the substring convention is the orchestrator's, not the
router's); on such a response from the first candidate's first attempt it
calls `mark_success` on that provider and returns the text immediately,
touching no other candidate. -/
theorem router_success_classification (rs : RouterState) (now : Int)
    (beh : String → Nat → Except String String) (m : ModelProvider)
    (rest : List ModelProvider) (r : String)
    (havail : get_available_models (cleanup_statuses rs now).models now =
      m :: rest)
    (hbeh : beh m.name 0 = .ok r) :
    (routerSuccess r = true ↔
      (r ≠ "" ∧ startsB r "❌" = false ∧ startsB r "⏳" = false)) ∧
    (routerSuccess r = true →
      send_chat_completion rs now beh =
        (r, { models := updateModel (cleanup_statuses rs now).models m.name
                          (fun st => markSuccessStatus st now),
              last_cleanup_time :=
                (cleanup_statuses rs now).last_cleanup_time })) := by
  constructor
  · simp only [routerSuccess, Bool.and_eq_true, Bool.not_eq_true']
    constructor
    · rintro ⟨⟨he, h1⟩, h2⟩
      refine ⟨?_, h1, h2⟩
      intro heq
      subst heq
      simp [List.isEmpty] at he
    · rintro ⟨he, h1, h2⟩
      refine ⟨⟨?_, h1⟩, h2⟩
      obtain ⟨l⟩ := r
      cases l with
      | nil => exact absurd rfl he
      | cons c cs => rfl
  · intro hs
    rw [send_eq_loop rs now beh m rest havail]
    unfold dispatchLoop
    rw [show List.range max_retries_per_model = [0, 1, 2] from rfl]
    simp only [tryAttempts, hbeh, hs, if_true]

/-- Witness for the amended C2: ordinary text from the first candidate's
first attempt is returned at once with the provider marked successful. -/
theorem router_success_classification_witness :
    send_chat_completion demoState 0 demoBehOk =
      ("Привет",
       { models := updateModel (cleanup_statuses demoState 0).models
           demoProvider.name (fun st => markSuccessStatus st 0),
         last_cleanup_time :=
           (cleanup_statuses demoState 0).last_cleanup_time }) :=
  (router_success_classification demoState 0 demoBehOk demoProvider []
    "Привет" (by decide) rfl).2 (by decide)
